import Mathlib

/-!
Shallow embedding of the mcp-instana authentication layer
(`src/core/jwt_auth.py`, `src/core/auth_handler/oauth.py`,
`src/core/auth_handler/dynamic_token_client.py`, `src/core/utils.py`)
together with proofs of the spec claims about it.

Python dictionaries are modelled as insertion-ordered association lists
(`dget`, `dinsert`, `ddel` mirror `d.get`, `d[k] = v`, `del d[k]`),
Python string truthiness as `pyTruthyStr`, and `x or y` on optional
strings as `pyOrStr`.  Effects (HTTP calls, clocks, random token
generation) are passed in as explicit parameters.
-/

namespace McpInstana

/-- Python dict `d.get(k)`: first binding for `k`, if any. -/
def dget {β : Type} (l : List (String × β)) (k : String) : Option β :=
  (l.find? (fun p => p.1 == k)).map Prod.snd

/-- Python dict `d[k] = v`: overwrite in place if the key exists, else append
(Python dicts keep insertion order and updating a key keeps its position). -/
def dinsert {β : Type} (l : List (String × β)) (k : String) (v : β) :
    List (String × β) :=
  if l.any (fun p => p.1 == k) then
    l.map (fun p => if p.1 == k then (k, v) else p)
  else
    l ++ [(k, v)]

/-- Python dict `del d[k]`. -/
def ddel {β : Type} (l : List (String × β)) (k : String) : List (String × β) :=
  l.filter (fun p => p.1 != k)

/-- Truthiness of an optional Python string: `None` and `""` are falsy. -/
def pyTruthyStr : Option String → Bool
  | none => false
  | some s => s ≠ ""

/-- Python `a or b` on optional strings: `a` if truthy, else `b`. -/
def pyOrStr (a b : Option String) : Option String :=
  if pyTruthyStr a then a else b

/-- Python `f"{x}"` for an optional string (`None` prints as `"None"`). -/
def pyStr : Option String → String
  | none => "None"
  | some s => s

/-- Helper for `pySplit`: walk the characters, accumulating the current
word (reversed); whitespace ends a word, empty words are dropped. -/
def pySplitAux : List Char → List Char → List String
  | [], acc => if acc.isEmpty then [] else [String.mk acc.reverse]
  | c :: cs, acc =>
    if c.isWhitespace then
      if acc.isEmpty then pySplitAux cs []
      else String.mk acc.reverse :: pySplitAux cs []
    else pySplitAux cs (c :: acc)

/-- Python `s.split()`: split on whitespace, dropping empty pieces. -/
def pySplit (s : String) : List String :=
  pySplitAux s.data []

/-- Python `s.startswith(pre)`. -/
def pyStartsWith (s pre : String) : Bool :=
  pre.data.isPrefixOf s.data

/-- Python `s[n:]` (character-based slice). -/
def pyDrop (s : String) (n : Nat) : String :=
  String.mk (s.data.drop n)

/-- Predicate: `needle` occurs as a contiguous substring of `hay` (over their character
lists). Used to formalise "fails with a `⟨phrase⟩` error". -/
def strContains (hay needle : String) : Bool :=
  hay.toList.tails.any (fun t => needle.toList.isPrefixOf t)

namespace JwtAuth

/-- JWT claim sets / decoded payloads, as string-valued dictionaries. -/
abbrev Claims := List (String × String)

/-- Model of `TokenVerifier.get_instana_credentials_from_jwt` (jwt_auth.py:207-224):
`claims.get("instana_token") or claims.get("instana_api_token")` for the
token, `claims.get("instana_base_url") or claims.get("instana_url")` for the
base URL; return the pair only when both are truthy. -/
def get_instana_credentials_from_jwt (claims : Claims) :
    Option (String × String) :=
  let instana_token :=
    pyOrStr (dget claims "instana_token") (dget claims "instana_api_token")
  let instana_base_url :=
    pyOrStr (dget claims "instana_base_url") (dget claims "instana_url")
  if pyTruthyStr instana_token && pyTruthyStr instana_base_url then
    some (pyStr instana_token, pyStr instana_base_url)
  else
    none

/-- The token claim chain of jwt_auth.py:218. -/
def resolvedToken (claims : Claims) : Option String :=
  pyOrStr (dget claims "instana_token") (dget claims "instana_api_token")

/-- The base-URL claim chain of jwt_auth.py:219. -/
def resolvedBaseUrl (claims : Claims) : Option String :=
  pyOrStr (dget claims "instana_base_url") (dget claims "instana_url")

/-- The mutable fields of a `TokenVerifier` (jwt_auth.py:30-57).
Keys fetched from the JWKS endpoint are kept as a `kid → key-data`
dictionary; key data is modelled as an opaque string. -/
structure Verifier where
  public_key : Option String
  jwks_uri : Option String
  audience : Option String
  algorithm : String
  required_scopes : List String
  jwks_keys : List (String × String)
  last_jwks_fetch : Int
  jwks_cache_duration : Int
deriving Repr, DecidableEq

/-- Outcome of the `requests.get(self.jwks_uri)` call inside
`_fetch_jwks_keys`: either a parsed `{kid: key}` map, or any exception
(network error, bad status, bad JSON). -/
inductive FetchOutcome where
  | success (keys : List (String × String))
  | failure
deriving Repr, DecidableEq

/-- Model of `TokenVerifier._fetch_jwks_keys` (jwt_auth.py:74-96): no JWKS URI
yields `{}`; a fresh cache is returned as is; otherwise fetch, and on any
exception return whatever is currently cached. Returns the key map and
the updated verifier. -/
def fetch_jwks_keys (v : Verifier) (now : Int) (fo : FetchOutcome) :
    List (String × String) × Verifier :=
  match v.jwks_uri with
  | none => ([], v)
  | some _ =>
    if now - v.last_jwks_fetch < v.jwks_cache_duration then
      (v.jwks_keys, v)
    else
      match fo with
      | .success keys =>
          (keys, { v with jwks_keys := keys, last_jwks_fetch := now })
      | .failure => (v.jwks_keys, v)

/-- Model of `TokenVerifier._get_verification_key` (jwt_auth.py:98-114): with a JWKS
URI, look the `kid` of the token header up in the fetched keys (requiring a
truthy `kid`); without one, return the static public key. -/
def get_verification_key (v : Verifier) (now : Int) (fo : FetchOutcome)
    (kid : Option String) : Option String × Verifier :=
  match v.jwks_uri with
  | some _ =>
    let r := fetch_jwks_keys v now fo
    if pyTruthyStr kid then
      match dget r.1 (pyStr kid) with
      | some key_data => (some key_data, r.2)
      | none => (none, r.2)
    else
      (none, r.2)
  | none => (v.public_key, v)

/-- Outcome of `jwt.decode` (jwt_auth.py:147-157): the verified payload, or
one of the caught exception classes. -/
inductive DecodeOutcome where
  | ok (payload : Claims)
  | expired
  | invalidAudience
  | invalidSignature
  | invalidToken (msg : String)
  | otherError (msg : String)
deriving Repr, DecidableEq

/-- The result dictionary of `validate_jwt_token`. -/
structure ValidationResult where
  valid : Bool
  claims : Claims
  error : Option String
deriving Repr, DecidableEq

/-- Model of `TokenVerifier.validate_jwt_token` (jwt_auth.py:116-205): resolve a
verification key (falsy key → "No verification key available"); decode;
on success check `required_scopes` against the space-split `scope` claim
(failure keeps the decoded payload in `claims`); each caught exception
maps to `valid=False, claims={}` with its message. -/
def validate_jwt_token (v : Verifier) (now : Int) (fo : FetchOutcome)
    (kid : Option String) (dec : DecodeOutcome) :
    ValidationResult × Verifier :=
  let r := get_verification_key v now fo kid
  if ¬ pyTruthyStr r.1 then
    (⟨false, [], some "No verification key available"⟩, r.2)
  else
    match dec with
    | .ok payload =>
        if v.required_scopes ≠ [] then
          let token_scopes := pySplit ((dget payload "scope").getD "")
          if ¬ v.required_scopes.all (fun scope => token_scopes.contains scope) then
            (⟨false, payload,
              some ("Missing required scopes: " ++ toString v.required_scopes)⟩, r.2)
          else
            (⟨true, payload, none⟩, r.2)
        else
          (⟨true, payload, none⟩, r.2)
    | .expired => (⟨false, [], some "Token has expired"⟩, r.2)
    | .invalidAudience =>
        (⟨false, [],
          some ("Invalid audience. Expected: " ++ pyStr v.audience)⟩, r.2)
    | .invalidSignature => (⟨false, [], some "Invalid token signature"⟩, r.2)
    | .invalidToken msg => (⟨false, [], some ("Invalid token: " ++ msg)⟩, r.2)
    | .otherError msg => (⟨false, [], some ("Validation error: " ++ msg)⟩, r.2)

end JwtAuth

namespace OAuthP

/-- Model of `mcp.server.auth.provider.AuthorizationCode`, with the fields
`SimpleOAuthProvider` uses (oauth.py:255-263). -/
structure AuthorizationCode where
  code : String
  client_id : String
  redirect_uri : String
  redirect_uri_provided_explicitly : Bool
  expires_at : Int
  scopes : List String
  code_challenge : String
deriving Repr, DecidableEq

/-- Model of `mcp.server.auth.provider.AccessToken` as stored in `self.tokens`. -/
structure AccessToken where
  token : String
  client_id : String
  scopes : List String
  expires_at : Option Int
deriving Repr, DecidableEq

/-- An entry of `self.state_mapping` (oauth.py:160-167); the
`redirect_uri_provided_explicitly` field is stored as the string
`str(bool)`, compared against `"True"` on readback. -/
structure StateData where
  redirect_uri : String
  code_challenge : String
  redirect_uri_provided_explicitly : String
  client_id : String
deriving Repr, DecidableEq

/-- Model of `OAuthToken` as returned by `exchange_authorization_code`
(oauth.py:349-354). -/
structure OAuthToken where
  access_token : String
  token_type : String
  expires_in : Int
  scope : String
deriving Repr, DecidableEq

/-- The mutable dictionaries of `SimpleOAuthProvider` (oauth.py:116-125). -/
structure ProviderState where
  auth_codes : List (String × AuthorizationCode)
  tokens : List (String × AccessToken)
  state_mapping : List (String × StateData)
  token_mapping : List (String × String)
  instana_jwt_mapping : List (String × String)
deriving Repr, DecidableEq

/-- The relevant `ServerSettings` fields read by the callback/exchange
code paths. -/
structure Settings where
  mcp_scope : String
  scope : String
deriving Repr, DecidableEq

/-- The token-endpoint response inspected by `handle_callback`
(oauth.py:211-242): HTTP status, and the `error`, `error_description`,
`id_token`, `access_token` fields of its JSON body (`none` = key absent). -/
structure CallbackResponse where
  status : Nat
  error : Option String
  error_description : Option String
  id_token : Option String
  access_token : Option String
deriving Repr, DecidableEq

/-- The exceptions `handle_callback` can raise. -/
inductive CallbackError where
  | invalidState
  | exchangeFailed
  | oauthError (desc : String)
  | noToken
deriving Repr, DecidableEq

/-- Model of `SimpleOAuthProvider.handle_callback` (oauth.py:185-286): look the
state up (missing → HTTP 400 "Invalid state parameter"); POST to the
token URL (`resp` is its outcome; non-200 → HTTP 400, body `error` key →
HTTP 400, no `id_token`/`access_token` → ValueError); mint
`new_code = "mcp_" + hex`, store it in `auth_codes`, `tokens`,
`token_mapping` and `instana_jwt_mapping`; delete the state entry; return
the redirect URI carrying `code` and `state`. `new_code_hex` stands for
`secrets.token_hex(16)` and `now` for `time.time()`.  The provider state
is returned alongside the outcome; every `raise` happens before any
mutation, so the state comes back unchanged on the error paths. -/
def handle_callback (st : ProviderState) (settings : Settings)
    (code state : String) (resp : CallbackResponse) (new_code_hex : String)
    (now : Int) : Except CallbackError String × ProviderState :=
  match dget st.state_mapping state with
  | none => (.error .invalidState, st)
  | some state_data =>
    let redirect_uri := state_data.redirect_uri
    let code_challenge := state_data.code_challenge
    let redirect_uri_provided_explicitly :=
      state_data.redirect_uri_provided_explicitly == "True"
    let client_id := state_data.client_id
    if resp.status ≠ 200 then
      (.error .exchangeFailed, st)
    else
      match resp.error with
      | some err => (.error (.oauthError (resp.error_description.getD err)), st)
      | none =>
        let auth_token := pyOrStr resp.id_token resp.access_token
        if ¬ pyTruthyStr auth_token then
          (.error .noToken, st)
        else
          let auth_token := pyStr auth_token
          let instana_jwt_token := auth_token
          let new_code := "mcp_" ++ new_code_hex
          let auth_code : AuthorizationCode :=
            ⟨new_code, client_id, redirect_uri,
             redirect_uri_provided_explicitly, now + 300,
             [settings.mcp_scope], code_challenge⟩
          let st :=
            { st with
              auth_codes := dinsert st.auth_codes new_code auth_code
              tokens := dinsert st.tokens ("auth_" ++ auth_token)
                ⟨auth_token, client_id, [settings.scope], none⟩
              token_mapping := dinsert st.token_mapping new_code auth_token
              instana_jwt_mapping :=
                dinsert st.instana_jwt_mapping new_code instana_jwt_token }
          let st := { st with state_mapping := ddel st.state_mapping state }
          (.ok (redirect_uri ++ "?code=" ++ new_code ++ "&state=" ++ state), st)

/-- Model of `SimpleOAuthProvider.exchange_authorization_code` (oauth.py:294-362):
reject codes absent from `auth_codes` with ValueError "Invalid
authorization code"; mint an MCP access token, store it, map it to the
first stored `auth_`-keyed token of the same client and to the Instana
JWT entry of the code; delete the used code; return the `OAuthToken`.
`tok_hex` stands for `secrets.token_hex(32)` and `now` for `time.time()`.
The provider state is returned alongside the outcome; the ValueError is
raised before any mutation. -/
def exchange_authorization_code (st : ProviderState) (client_id : String)
    (authorization_code : AuthorizationCode) (tok_hex : String) (now : Int) :
    Except String OAuthToken × ProviderState :=
  if (dget st.auth_codes authorization_code.code).isNone then
    (.error "Invalid authorization code", st)
  else
    let mcp_token := "mcp_" ++ tok_hex
    let tokens := dinsert st.tokens mcp_token
      ⟨mcp_token, client_id, authorization_code.scopes, some (now + 3600)⟩
    let auth_token :=
      (tokens.find? (fun p =>
        pyStartsWith p.1 "auth_" && p.2.client_id == client_id)).map Prod.fst
    let token_mapping :=
      match auth_token with
      | some t => dinsert st.token_mapping mcp_token t
      | none => st.token_mapping
    let instana_jwt_mapping :=
      match dget st.instana_jwt_mapping authorization_code.code with
      | some instana_jwt =>
          ddel (dinsert st.instana_jwt_mapping mcp_token instana_jwt)
            authorization_code.code
      | none => st.instana_jwt_mapping
    let st :=
      { st with
        tokens := tokens
        token_mapping := token_mapping
        instana_jwt_mapping := instana_jwt_mapping
        auth_codes := ddel st.auth_codes authorization_code.code }
    (.ok ⟨mcp_token, "Bearer", 3600,
          String.intercalate " " authorization_code.scopes⟩, st)

end OAuthP

namespace DynTok

/-- Constant `DEFAULT_TOKEN_EXPIRY` (dynamic_token_client.py:19). -/
def DEFAULT_TOKEN_EXPIRY : Int := 3600

/-- Constant `TOKEN_REFRESH_BUFFER` (dynamic_token_client.py:20). -/
def TOKEN_REFRESH_BUFFER : Int := 60

/-- The mutable token cache of a `DynamicTokenClient`
(dynamic_token_client.py:37-38): `_access_token` starts as `None`,
`_expires_at` as `0`. -/
structure ClientState where
  access_token : Option String
  expires_at : Int
deriving Repr, DecidableEq

/-- The token-endpoint response as `_refresh_token` inspects it: HTTP
status, whether `.json()` parses, and the `access_token`, `token` and
`expires_in` body fields (`none` = key absent). -/
structure TokenResponse where
  status : Nat
  json_ok : Bool
  access_token : Option String
  token : Option String
  expires_in : Option Int
deriving Repr, DecidableEq

/-- Outcome of the HTTP call `_refresh_token` makes to the token URL:
a response, or a transport-level `httpx.RequestError` / configuration
`ValueError` raised before any response exists. -/
inductive RefreshCall where
  | response (r : TokenResponse)
  | requestError (msg : String)
deriving Repr, DecidableEq

/-- The exceptions `_refresh_token` can propagate. -/
inductive RefreshError where
  | httpStatusError (status : Nat)
  | requestError (msg : String)
  | jsonError
deriving Repr, DecidableEq

/-- Model of `DynamicTokenClient._refresh_token`, from the response onward
(dynamic_token_client.py:102-140): parse the body (parse failure
propagates); take `access_token or token` regardless of HTTP status; if
truthy, cache it with `expires_at = now + expires_in(def. 3600) - 60`;
otherwise `raise_for_status()` — an error status raises
`httpx.HTTPStatusError`, whose handler re-reads the same body, finds no
token again, and re-raises; a non-error status returns normally with the
cache holding no token. -/
def refresh_token (st : ClientState) (now : Int) (call : RefreshCall) :
    Except RefreshError ClientState :=
  match call with
  | .requestError msg => .error (.requestError msg)
  | .response r =>
    if ¬ r.json_ok then
      .error .jsonError
    else
      let tok := pyOrStr r.access_token r.token
      if pyTruthyStr tok then
        .ok { access_token := tok,
              expires_at := now + (r.expires_in.getD DEFAULT_TOKEN_EXPIRY)
                - TOKEN_REFRESH_BUFFER }
      else
        if r.status ≥ 400 then
          .error (.httpStatusError r.status)
        else
          .ok { st with access_token := tok }

/-- What `request` hands to `super().request` for a non-token-endpoint
call, plus whether a refresh was performed first. -/
structure Dispatch where
  headers : List (String × String)
  refreshed : Bool
deriving Repr, DecidableEq

/-- Python `dict.update` folded over an association list. -/
def updateAll (base upd : List (String × String)) :
    List (String × String) :=
  upd.foldl (fun acc p => dinsert acc p.1 p.2) base

/-- Model of `DynamicTokenClient.request` for a URL that is NOT the token endpoint
(dynamic_token_client.py:155-171): refresh when the cached token is falsy
or `now >= _expires_at` (a refresh failure clears the cache to
`(None, 0)` and propagates); then dispatch with the init headers of the
client updated by the per-request headers, `Authorization` overwritten with the
cached bearer token, and `Content-Type` defaulted to `application/json`.
Returns the result together with the final cache state. -/
def request (st : ClientState) (now : Int)
    (init_headers caller_headers : List (String × String))
    (call : RefreshCall) : Except RefreshError Dispatch × ClientState :=
  let need : Bool := !pyTruthyStr st.access_token || decide (now ≥ st.expires_at)
  let refreshed : Except RefreshError ClientState :=
    if need then refresh_token st now call else .ok st
  match refreshed with
  | .error e => (.error e, ⟨none, 0⟩)
  | .ok st' =>
    let headers := updateAll init_headers caller_headers
    let headers := dinsert headers "Authorization"
      ("Bearer " ++ pyStr st'.access_token)
    let headers :=
      if (dget headers "Content-Type").isSome then headers
      else dinsert headers "Content-Type" "application/json"
    (.ok ⟨headers, need⟩, st')

end DynTok

namespace HeaderAuth

/-- How the `with_header_auth` wrapper proceeds after credential
resolution: build an API client from header credentials, return an error
payload, or fall through to STDIO constructor credentials. -/
inductive Resolution where
  | httpCreds (token base_url : String)
  | httpError (msg : String)
  | stdio
deriving Repr, DecidableEq

/-- utils.py:98-100: the `authorization` header with a `Bearer ` prefix
stripped (a non-Bearer value is kept as is). -/
def mcp_auth_token (headers : List (String × String)) : Option String :=
  match dget headers "authorization" with
  | some a => if pyStartsWith a "Bearer " then some (pyDrop a 7) else some a
  | none => none

/-- utils.py:103: headers signal HTTP mode when any of the JWT header, the
base-URL header or the (stripped) authorization header is truthy. -/
def http_mode (headers : List (String × String)) : Bool :=
  pyTruthyStr (dget headers "instana-jwt-token")
    || pyTruthyStr (dget headers "instana-base-url")
    || pyTruthyStr (mcp_auth_token headers)

/-- utils.py:105-144: the downstream JWT after the optional OAuth
token-mapping lookup (`provider` is the `instana_jwt_mapping` of the
registered provider, `none` when no provider is registered). -/
def resolved_jwt (headers : List (String × String)) (oauth_enabled : Bool)
    (provider : Option (List (String × String))) : Option String :=
  let instana_jwt_token := dget headers "instana-jwt-token"
  if pyTruthyStr (mcp_auth_token headers) && ¬ pyTruthyStr instana_jwt_token then
    if oauth_enabled then
      match provider with
      | some mapping => dget mapping (pyStr (mcp_auth_token headers))
      | none => instana_jwt_token
    else instana_jwt_token
  else instana_jwt_token

/-- utils.py:146-151: the base URL after the `INSTANA_BASE_URL`
environment fallback. -/
def resolved_base_url (headers : List (String × String))
    (env_base_url : Option String) : Option String :=
  let instana_base_url := dget headers "instana-base-url"
  if ¬ pyTruthyStr instana_base_url then env_base_url
  else instana_base_url

/-- The credential-resolution logic of the `with_header_auth` wrapper
(utils.py:92-206, no mock client, `get_http_headers` succeeding): in HTTP
mode, after the OAuth-mapping and environment fallbacks, a missing token
or base URL, or a base URL without an `http://`/`https://` scheme, yields
an error payload; outside HTTP mode fall through to STDIO constructor
credentials. -/
def resolve_auth (headers : List (String × String)) (oauth_enabled : Bool)
    (provider : Option (List (String × String)))
    (env_base_url : Option String) : Resolution :=
  if http_mode headers then
    let instana_jwt_token := resolved_jwt headers oauth_enabled provider
    let instana_base_url := resolved_base_url headers env_base_url
    if !pyTruthyStr instana_jwt_token || !pyTruthyStr instana_base_url then
      let missing :=
        (if !pyTruthyStr instana_jwt_token then
          ["instana-jwt-token (or valid OAuth token)"] else []) ++
        (if !pyTruthyStr instana_base_url then
          ["instana-base-url (header or INSTANA_BASE_URL env var)"] else [])
      .httpError ("HTTP mode detected but missing required configuration: "
        ++ String.intercalate ", " missing)
    else
      let url := pyStr instana_base_url
      if !pyStartsWith url "http://" && !pyStartsWith url "https://" then
        .httpError "Instana base URL must start with http:// or https://"
      else
        .httpCreds (pyStr instana_jwt_token) url
  else
    .stdio

end HeaderAuth


/-! ### Dictionary lemmas -/

theorem find_map_keep {β : Type} (k k' : String) (v : β)
    (h : k' ≠ k) (t : List (String × β)) :
    (t.map (fun p => if p.1 == k then (k, v) else p)).find? (fun p => p.1 == k')
      = t.find? (fun p => p.1 == k') := by
  rw [List.find?_map]
  have hpred : ((fun p => p.1 == k') ∘ (fun p : String × β => if p.1 == k then (k, v) else p))
      = (fun p : String × β => p.1 == k') := by
    funext p
    by_cases hp : p.1 = k
    · simp only [Function.comp_apply, hp, beq_self_eq_true, if_pos]
    · have hpb : ¬ ((p.1 == k) = true) := by simp [hp]
      simp only [Function.comp_apply, if_neg hpb]
  rw [hpred]
  cases hf : t.find? (fun p => p.1 == k') with
  | none => simp
  | some a =>
    have ha := List.find?_some hf
    have ha' : a.1 ≠ k := by
      intro hc
      rw [beq_iff_eq] at ha
      exact h (by rw [← ha, hc])
    have hfix : (if a.1 == k then (k, v) else a) = a := by
      rw [beq_eq_false_iff_ne.mpr ha']
      simp
    simp only [Option.map]
    rw [hfix]

theorem find_map_self {β : Type} (k : String) (v : β) (t : List (String × β))
    (h : t.any (fun p => p.1 == k) = true) :
    (t.map (fun p => if p.1 == k then (k, v) else p)).find? (fun p => p.1 == k)
      = some (k, v) := by
  rw [List.find?_map]
  have hpred : ((fun p => p.1 == k) ∘ (fun p : String × β => if p.1 == k then (k, v) else p))
      = (fun p : String × β => p.1 == k) := by
    funext p
    by_cases hp : p.1 = k
    · simp only [Function.comp_apply, hp, beq_self_eq_true, if_pos]
    · have hpb : ¬ ((p.1 == k) = true) := by simp [hp]
      simp only [Function.comp_apply, if_neg hpb]
  rw [hpred]
  have hsome : (t.find? (fun p => p.1 == k)).isSome = true := by
    rw [List.find?_isSome]
    exact List.any_eq_true.mp h
  cases hf : t.find? (fun p => p.1 == k) with
  | none => rw [hf] at hsome; simp at hsome
  | some a =>
    have ha := List.find?_some hf
    have hfix : (if a.1 == k then (k, v) else a) = (k, v) := by rw [ha]; simp
    simp only [Option.map]
    rw [hfix]

theorem dget_dinsert {β : Type} (l : List (String × β)) (k k' : String) (v : β) :
    dget (dinsert l k v) k' = if k' = k then some v else dget l k' := by
  unfold dget dinsert
  by_cases h : l.any (fun p => p.1 == k) = true
  · rw [if_pos h]
    by_cases hk : k' = k
    · subst hk
      rw [find_map_self k' v l h]
      simp
    · rw [find_map_keep k k' v hk l]
      simp [hk]
  · rw [if_neg h]
    rw [List.find?_append]
    by_cases hk : k' = k
    · subst hk
      have hnone : l.find? (fun p => p.1 == k') = none := by
        rw [List.find?_eq_none]
        intro x hx
        simp only [Bool.not_eq_true]
        by_contra hc
        simp only [Bool.not_eq_false] at hc
        exact h (List.any_eq_true.mpr ⟨x, hx, hc⟩)
      simp [hnone]
    · cases hfind : l.find? (fun p => p.1 == k') with
      | none =>
        simp [Option.or, beq_eq_false_iff_ne.mpr (fun hc => hk hc.symm), hk]
      | some a => simp [Option.or, hk]

theorem dget_ddel_self {β : Type} (l : List (String × β)) (k : String) :
    dget (ddel l k) k = none := by
  unfold dget ddel
  have : (l.filter (fun p => p.1 != k)).find? (fun p => p.1 == k) = none := by
    rw [List.find?_eq_none]
    intro x hx
    have := List.of_mem_filter hx
    simpa [bne] using this
  simp [this]

theorem dget_ddel_ne {β : Type} (l : List (String × β)) (k k' : String)
    (h : k' ≠ k) : dget (ddel l k) k' = dget l k' := by
  unfold dget ddel
  induction l with
  | nil => rfl
  | cons q t ih =>
    rw [List.filter_cons]
    by_cases hq : q.1 = k
    · have h1 : (q.1 != k) = false := by simp [bne, hq]
      have h2 : (q.1 == k') = false :=
        beq_eq_false_iff_ne.mpr (by rw [hq]; exact fun hc => h hc.symm)
      rw [h1]
      simp only [Bool.false_eq_true, if_neg]
      rw [List.find?_cons, h2]
      exact ih
    · have h1 : (q.1 != k) = true := by simp [bne, hq]
      rw [h1, if_pos rfl]
      rw [List.find?_cons, List.find?_cons]
      cases h2 : (q.1 == k') with
      | true => rfl
      | false => exact ih

/-- Unfolding: `get_instana_credentials_from_jwt` as a function of the two claim
chains (definitional unfolding). -/
theorem get_creds_characterization (claims : JwtAuth.Claims) :
    JwtAuth.get_instana_credentials_from_jwt claims =
      if (pyTruthyStr (JwtAuth.resolvedToken claims) &&
          pyTruthyStr (JwtAuth.resolvedBaseUrl claims)) then
        some (pyStr (JwtAuth.resolvedToken claims),
              pyStr (JwtAuth.resolvedBaseUrl claims))
      else none := rfl

/-- Unfolding: `validate_jwt_token` on a successfully decoded payload (definitional
unfolding of the `.ok` branch). -/
theorem validate_ok_eq (v : JwtAuth.Verifier) (now : Int)
    (fo : JwtAuth.FetchOutcome) (kid : Option String)
    (payload : JwtAuth.Claims) :
    JwtAuth.validate_jwt_token v now fo kid (.ok payload) =
      (if ¬ pyTruthyStr (JwtAuth.get_verification_key v now fo kid).1 then
        (⟨false, [], some "No verification key available"⟩,
         (JwtAuth.get_verification_key v now fo kid).2)
      else if v.required_scopes ≠ [] then
        if ¬ v.required_scopes.all (fun scope =>
            (pySplit ((dget payload "scope").getD "")).contains scope) then
          (⟨false, payload,
            some ("Missing required scopes: " ++ toString v.required_scopes)⟩,
           (JwtAuth.get_verification_key v now fo kid).2)
        else
          (⟨true, payload, none⟩, (JwtAuth.get_verification_key v now fo kid).2)
      else
        (⟨true, payload, none⟩, (JwtAuth.get_verification_key v now fo kid).2)) :=
  rfl

/-- Every decode outcome other than `.ok` yields empty `claims`. -/
theorem validate_not_ok_claims_empty (v : JwtAuth.Verifier) (now : Int)
    (fo : JwtAuth.FetchOutcome) (kid : Option String)
    (dec : JwtAuth.DecodeOutcome) (h : ∀ p, dec ≠ .ok p) :
    (JwtAuth.validate_jwt_token v now fo kid dec).1.claims = [] := by
  unfold JwtAuth.validate_jwt_token
  by_cases hkey : pyTruthyStr (JwtAuth.get_verification_key v now fo kid).1 = true
  · rw [if_neg (by rw [hkey]; exact fun hc => hc rfl)]
    cases dec with
    | ok p => exact absurd rfl (h p)
    | expired => rfl
    | invalidAudience => rfl
    | invalidSignature => rfl
    | invalidToken msg => rfl
    | otherError msg => rfl
  · rw [if_pos (by simpa using hkey)]

/-! ### Claim theorems -/

/-- C3: for every claims mapping in which only one of the two
downstream-credential claims resolves, `get_instana_credentials_from_jwt`
returns nothing; it returns the `(token, base_url)` pair only when both
resolve, trying the primary claim name then the fallback name for each
(the resolution chains `resolvedToken`/`resolvedBaseUrl` are exactly
`instana_token or instana_api_token` and
`instana_base_url or instana_url`). -/
theorem C3_one_sided_credentials_rejected (claims : JwtAuth.Claims) :
    (¬ (pyTruthyStr (JwtAuth.resolvedToken claims) = true ∧
          pyTruthyStr (JwtAuth.resolvedBaseUrl claims) = true) →
        JwtAuth.get_instana_credentials_from_jwt claims = none)
    ∧ (∀ t u : String,
        JwtAuth.resolvedToken claims = some t → t ≠ "" →
        JwtAuth.resolvedBaseUrl claims = some u → u ≠ "" →
        JwtAuth.get_instana_credentials_from_jwt claims = some (t, u)) := by
  constructor
  · intro h
    rw [get_creds_characterization]
    rw [if_neg]
    intro hc
    rw [Bool.and_eq_true] at hc
    exact h hc
  · intro t u ht htne hu hune
    rw [get_creds_characterization, ht, hu]
    have h1 : pyTruthyStr (some t) = true := by simp [pyTruthyStr, htne]
    have h2 : pyTruthyStr (some u) = true := by simp [pyTruthyStr, hune]
    rw [h1, h2]
    rfl

/-- Witness for C3: one-sided claims are rejected, full fallback-name
claims are accepted. -/
theorem C3_witness :
    JwtAuth.get_instana_credentials_from_jwt [("instana_token", "tok")] = none
    ∧ JwtAuth.get_instana_credentials_from_jwt
        [("instana_api_token", "tok"), ("instana_url", "https://u")]
        = some ("tok", "https://u") :=
  ⟨(C3_one_sided_credentials_rejected _).1 (by decide),
   (C3_one_sided_credentials_rejected _).2 "tok" "https://u"
     (by decide) (by decide) (by decide) (by decide)⟩

/-- C8: for every token that passes verification (decode yields a payload
and a verification key was available), if `required_scopes` is non-empty
and some required scope is missing from the space-delimited `scope`
claim, `validate_jwt_token` returns an invalid result with a
"Missing required scopes" error; when every required scope appears, the
result is valid. -/
theorem C8_required_scopes_enforced
    (v : JwtAuth.Verifier) (now : Int) (fo : JwtAuth.FetchOutcome)
    (kid : Option String) (payload : JwtAuth.Claims)
    (hkey : pyTruthyStr (JwtAuth.get_verification_key v now fo kid).1 = true)
    (hreq : v.required_scopes ≠ []) :
    (v.required_scopes.all
        (fun scope => (pySplit ((dget payload "scope").getD "")).contains scope)
        = false →
      (JwtAuth.validate_jwt_token v now fo kid (.ok payload)).1 =
        ⟨false, payload,
         some ("Missing required scopes: " ++ toString v.required_scopes)⟩)
    ∧ (v.required_scopes.all
        (fun scope => (pySplit ((dget payload "scope").getD "")).contains scope)
        = true →
      (JwtAuth.validate_jwt_token v now fo kid (.ok payload)).1 =
        ⟨true, payload, none⟩) := by
  rw [validate_ok_eq]
  rw [if_neg (by rw [hkey]; exact fun hc => hc rfl)]
  constructor
  · intro hmiss
    rw [if_pos hreq, if_pos (by rw [hmiss]; simp)]
  · intro hall
    rw [if_pos hreq, if_neg (by rw [hall]; exact not_not_intro rfl)]

/-- Witness for C8: the spec scenario — scope `"read:data"` with required
scopes `["read:data", "write:data"]` fails, scope
`"read:data write:data"` passes. -/
theorem C8_witness :
    (JwtAuth.validate_jwt_token
        ⟨none, some "https://jwks", some "aud", "RS256",
         ["read:data", "write:data"], [("k1", "KEY")], 4000, 3600⟩
        5000 .failure (some "k1") (.ok [("scope", "read:data")])).1 =
      ⟨false, [("scope", "read:data")],
       some "Missing required scopes: [read:data, write:data]"⟩
    ∧ (JwtAuth.validate_jwt_token
        ⟨none, some "https://jwks", some "aud", "RS256",
         ["read:data", "write:data"], [("k1", "KEY")], 4000, 3600⟩
        5000 .failure (some "k1") (.ok [("scope", "read:data write:data")])).1 =
      ⟨true, [("scope", "read:data write:data")], none⟩ :=
  ⟨(C8_required_scopes_enforced _ 5000 .failure (some "k1") _
      (by decide) (by decide)).1 (by decide),
   (C8_required_scopes_enforced _ 5000 .failure (some "k1") _
      (by decide) (by decide)).2 (by decide)⟩

/-- C10 (implicit): the `claims` field of a failed validation result is
non-empty only in the missing-scopes case — that case carries the full
verified payload (`valid = false`, `claims = payload`), while every other
failure returns `claims = {}`. -/
theorem C10_invalid_claims_nonempty_iff_missing_scopes
    (v : JwtAuth.Verifier) (now : Int) (fo : JwtAuth.FetchOutcome)
    (kid : Option String) (dec : JwtAuth.DecodeOutcome) :
    ((JwtAuth.validate_jwt_token v now fo kid dec).1.valid = false →
      (JwtAuth.validate_jwt_token v now fo kid dec).1.claims ≠ [] →
      ∃ payload, dec = .ok payload ∧
        (JwtAuth.validate_jwt_token v now fo kid dec).1.claims = payload ∧
        (JwtAuth.validate_jwt_token v now fo kid dec).1.error =
          some ("Missing required scopes: " ++ toString v.required_scopes))
    ∧ (∀ payload, dec = .ok payload →
        pyTruthyStr (JwtAuth.get_verification_key v now fo kid).1 = true →
        v.required_scopes ≠ [] →
        v.required_scopes.all
          (fun scope =>
            (pySplit ((dget payload "scope").getD "")).contains scope) = false →
        (JwtAuth.validate_jwt_token v now fo kid dec).1 =
          ⟨false, payload,
           some ("Missing required scopes: " ++ toString v.required_scopes)⟩) := by
  constructor
  · intro hvalid hclaims
    cases dec with
    | ok payload =>
      rw [validate_ok_eq] at hvalid hclaims ⊢
      by_cases hkey : pyTruthyStr (JwtAuth.get_verification_key v now fo kid).1 = true
      · rw [if_neg (by rw [hkey]; exact fun hc => hc rfl)] at hvalid hclaims ⊢
        refine ⟨payload, rfl, ?_⟩
        by_cases hreq : v.required_scopes ≠ []
        · rw [if_pos hreq] at hvalid hclaims ⊢
          by_cases hmiss : v.required_scopes.all
              (fun scope =>
                (pySplit ((dget payload "scope").getD "")).contains scope) = true
          · rw [if_neg (by rw [hmiss]; exact not_not_intro rfl)] at hvalid
            exact absurd hvalid (by simp)
          · rw [if_pos (by simpa using hmiss)]
            exact ⟨rfl, rfl⟩
        · rw [if_neg hreq] at hvalid
          exact absurd hvalid (by simp)
      · rw [if_pos (by simpa using hkey)] at hclaims
        exact absurd hclaims (by simp)
    | expired =>
      exact absurd (validate_not_ok_claims_empty v now fo kid _ (by intro p hc; cases hc))
        hclaims
    | invalidAudience =>
      exact absurd (validate_not_ok_claims_empty v now fo kid _ (by intro p hc; cases hc))
        hclaims
    | invalidSignature =>
      exact absurd (validate_not_ok_claims_empty v now fo kid _ (by intro p hc; cases hc))
        hclaims
    | invalidToken msg =>
      exact absurd (validate_not_ok_claims_empty v now fo kid _ (by intro p hc; cases hc))
        hclaims
    | otherError msg =>
      exact absurd (validate_not_ok_claims_empty v now fo kid _ (by intro p hc; cases hc))
        hclaims
  · intro payload hdec hkey hreq hmiss
    subst hdec
    rw [validate_ok_eq]
    rw [if_neg (by rw [hkey]; exact fun hc => hc rfl), if_pos hreq,
      if_pos (by rw [hmiss]; simp)]

/-- Witness for C10: an expired-token failure has empty claims, a
missing-scopes failure carries the payload. -/
theorem C10_witness :
    (∃ payload, (JwtAuth.DecodeOutcome.ok [("scope", "read:data"), ("sub", "alice")])
        = .ok payload ∧
      (JwtAuth.validate_jwt_token
          ⟨some "PK", none, none, "HS256", ["write:data"], [], 0, 3600⟩
          0 .failure none
          (.ok [("scope", "read:data"), ("sub", "alice")])).1.claims = payload ∧
      (JwtAuth.validate_jwt_token
          ⟨some "PK", none, none, "HS256", ["write:data"], [], 0, 3600⟩
          0 .failure none
          (.ok [("scope", "read:data"), ("sub", "alice")])).1.error =
        some ("Missing required scopes: " ++ toString ["write:data"]))
    ∧ (JwtAuth.validate_jwt_token
          ⟨some "PK", none, none, "HS256", ["write:data"], [], 0, 3600⟩
          0 .failure none
          (.ok [("scope", "read:data"), ("sub", "alice")])).1 =
        ⟨false, [("scope", "read:data"), ("sub", "alice")],
         some ("Missing required scopes: " ++ toString ["write:data"])⟩ :=
  ⟨(C10_invalid_claims_nonempty_iff_missing_scopes
      ⟨some "PK", none, none, "HS256", ["write:data"], [], 0, 3600⟩
      0 .failure none _).1 (by decide) (by decide),
   (C10_invalid_claims_nonempty_iff_missing_scopes
      ⟨some "PK", none, none, "HS256", ["write:data"], [], 0, 3600⟩
      0 .failure none _).2 _ rfl (by decide) (by decide) (by decide)⟩

/-- C7 (amended): when a JWKS fetch fails, `_fetch_jwks_keys` returns the
currently cached key map (possibly empty) with the verifier unchanged,
instead of propagating the exception; if the cache is empty (as after a
failure on the very first call), `validate_jwt_token` on any token fails
with the "No verification key available" error (the "key not found"
message appears only in the log, not in the result). -/
theorem C7_fetch_failure_returns_cache (v : JwtAuth.Verifier) (now : Int)
    (kid : Option String) (dec : JwtAuth.DecodeOutcome)
    (hjwks : v.jwks_uri.isSome = true) :
    JwtAuth.fetch_jwks_keys v now .failure = (v.jwks_keys, v)
    ∧ (v.jwks_keys = [] →
        (JwtAuth.validate_jwt_token v now .failure kid dec).1 =
          ⟨false, [], some "No verification key available"⟩) := by
  obtain ⟨pk, ju, aud, alg, rs, keys, lf, cd⟩ := v
  cases ju with
  | none => simp at hjwks
  | some u =>
    have hfetch : JwtAuth.fetch_jwks_keys ⟨pk, some u, aud, alg, rs, keys, lf, cd⟩
        now .failure = (keys, ⟨pk, some u, aud, alg, rs, keys, lf, cd⟩) := by
      unfold JwtAuth.fetch_jwks_keys
      by_cases hc : now - lf < cd
      · rw [if_pos hc]
      · rw [if_neg hc]
    refine ⟨hfetch, fun hkeys => ?_⟩
    subst hkeys
    have hkey : JwtAuth.get_verification_key ⟨pk, some u, aud, alg, rs, [], lf, cd⟩
        now .failure kid = (none, ⟨pk, some u, aud, alg, rs, [], lf, cd⟩) := by
      unfold JwtAuth.get_verification_key
      rw [hfetch]
      by_cases hk : pyTruthyStr kid = true
      · rw [if_pos hk]
        try rfl
      · rw [if_neg hk]
        try rfl
    unfold JwtAuth.validate_jwt_token
    rw [hkey]
    rw [if_pos (by intro hc; cases hc)]

/-- Witness for C7: a first-call fetch failure leaves an empty cache and
validation fails with "No verification key available". -/
theorem C7_witness :
    JwtAuth.fetch_jwks_keys
        ⟨none, some "https://jwks.example", none, "RS256", [], [], 0, 3600⟩
        5000 .failure =
      ([], ⟨none, some "https://jwks.example", none, "RS256", [], [], 0, 3600⟩)
    ∧ (JwtAuth.validate_jwt_token
        ⟨none, some "https://jwks.example", none, "RS256", [], [], 0, 3600⟩
        5000 .failure (some "k1") (.ok [("sub", "alice")])).1 =
      ⟨false, [], some "No verification key available"⟩ :=
  ⟨(C7_fetch_failure_returns_cache
      ⟨none, some "https://jwks.example", none, "RS256", [], [], 0, 3600⟩
      5000 (some "k1") (.ok [("sub", "alice")]) (by decide)).1,
   (C7_fetch_failure_returns_cache
      ⟨none, some "https://jwks.example", none, "RS256", [], [], 0, 3600⟩
      5000 (some "k1") (.ok [("sub", "alice")]) (by decide)).2 rfl⟩

/-- Counterexample for C7 as stated: after a first-call fetch failure the
validation error is "No verification key available", which does not
contain the phrase "key not found". -/
theorem C7_counterexample :
    (JwtAuth.validate_jwt_token
        ⟨none, some "https://jwks.example", none, "RS256", [], [], 0, 3600⟩
        5000 .failure (some "k1") (.ok [("sub", "alice")])).1.error =
      some "No verification key available"
    ∧ strContains "No verification key available" "key not found" = false :=
  ⟨rfl, by decide⟩

/-- Inversion for a successful `handle_callback`: the returned state has
the minted code `"mcp_" ++ hex` stored in `auth_codes` and the consumed
state entry deleted from `state_mapping`. -/
theorem handle_callback_ok_inv
    (st : OAuthP.ProviderState) (settings : OAuthP.Settings)
    (code state uri : String) (resp : OAuthP.CallbackResponse)
    (hex : String) (now : Int) (s₁ : OAuthP.ProviderState)
    (hcb : OAuthP.handle_callback st settings code state resp hex now
      = (.ok uri, s₁)) :
    (∃ acRec, s₁.auth_codes = dinsert st.auth_codes ("mcp_" ++ hex) acRec)
    ∧ s₁.state_mapping = ddel st.state_mapping state := by
  unfold OAuthP.handle_callback at hcb
  split at hcb
  · simp at hcb
  · split at hcb
    · simp at hcb
    · split at hcb
      · simp at hcb
      · simp only [] at hcb
        split at hcb
        · simp at hcb
        · simp only [Prod.mk.injEq, Except.ok.injEq] at hcb
          obtain ⟨-, hs⟩ := hcb
          rw [← hs]
          exact ⟨⟨_, rfl⟩, rfl⟩

/-- Lemma: `exchange_authorization_code` on a stored code always succeeds and
deletes the code from `auth_codes`. -/
theorem exchange_code_present (st : OAuthP.ProviderState) (client_id : String)
    (ac : OAuthP.AuthorizationCode) (tok_hex : String) (now : Int)
    (h : (dget st.auth_codes ac.code).isSome = true) :
    ∃ tok s₂,
      OAuthP.exchange_authorization_code st client_id ac tok_hex now
        = (.ok tok, s₂)
      ∧ s₂.auth_codes = ddel st.auth_codes ac.code := by
  cases hd : dget st.auth_codes ac.code with
  | none => rw [hd] at h; simp at h
  | some c =>
    unfold OAuthP.exchange_authorization_code
    rw [hd]
    exact ⟨_, _, rfl, rfl⟩

/-- Lemma: `exchange_authorization_code` on an absent code raises the
"Invalid authorization code" ValueError and leaves the state unchanged. -/
theorem exchange_code_absent (st : OAuthP.ProviderState) (client_id : String)
    (ac : OAuthP.AuthorizationCode) (tok_hex : String) (now : Int)
    (h : dget st.auth_codes ac.code = none) :
    OAuthP.exchange_authorization_code st client_id ac tok_hex now
      = (.error "Invalid authorization code", st) := by
  unfold OAuthP.exchange_authorization_code
  rw [h]
  rfl

/-- C1: authorization codes minted by `handle_callback` are single-use —
after a successful callback the minted code is present in `auth_codes`,
a first `exchange_authorization_code` with that code succeeds and deletes
the code-keyed entry, and any second exchange with the same code fails
with the "Invalid authorization code" error. -/
theorem C1_minted_auth_code_single_use
    (st : OAuthP.ProviderState) (settings : OAuthP.Settings)
    (code state uri : String) (resp : OAuthP.CallbackResponse)
    (hex : String) (now : Int) (s₁ : OAuthP.ProviderState)
    (hcb : OAuthP.handle_callback st settings code state resp hex now
      = (.ok uri, s₁))
    (client_id : String) (ac : OAuthP.AuthorizationCode)
    (tok_hex : String) (tnow : Int)
    (hac : ac.code = "mcp_" ++ hex) :
    (dget s₁.auth_codes ("mcp_" ++ hex)).isSome = true
    ∧ ∃ tok s₂,
        OAuthP.exchange_authorization_code s₁ client_id ac tok_hex tnow
          = (.ok tok, s₂)
        ∧ dget s₂.auth_codes ("mcp_" ++ hex) = none
        ∧ ∀ (cid2 tok_hex2 : String) (ac2 : OAuthP.AuthorizationCode)
            (tnow2 : Int), ac2.code = "mcp_" ++ hex →
            OAuthP.exchange_authorization_code s₂ cid2 ac2 tok_hex2 tnow2
              = (.error "Invalid authorization code", s₂) := by
  obtain ⟨⟨acRec, hauth⟩, -⟩ :=
    handle_callback_ok_inv st settings code state uri resp hex now s₁ hcb
  have h1 : (dget s₁.auth_codes ("mcp_" ++ hex)).isSome = true := by
    rw [hauth, dget_dinsert, if_pos rfl]
    rfl
  refine ⟨h1, ?_⟩
  obtain ⟨tok, s₂, hexch, hcodes⟩ :=
    exchange_code_present s₁ client_id ac tok_hex tnow (by rw [hac]; exact h1)
  refine ⟨tok, s₂, hexch, ?_, ?_⟩
  · rw [hcodes, hac]
    exact dget_ddel_self _ _
  · intro cid2 tok_hex2 ac2 tnow2 hac2
    apply exchange_code_absent
    rw [hac2, hcodes, hac]
    exact dget_ddel_self _ _

/-- Witness for C1: a concrete callback followed by two exchanges. -/
theorem C1_witness :
    (dget (⟨[("mcp_abcd", ⟨"mcp_abcd", "cid", "http://cb", true, 400, ["mcp"], "ch"⟩)],
        [("auth_ATOK", ⟨"ATOK", "cid", ["prov"], none⟩)], [],
        [("mcp_abcd", "ATOK")], [("mcp_abcd", "ATOK")]⟩
        : OAuthP.ProviderState).auth_codes ("mcp_" ++ "abcd")).isSome = true
    ∧ ∃ tok s₂,
        OAuthP.exchange_authorization_code
          ⟨[("mcp_abcd", ⟨"mcp_abcd", "cid", "http://cb", true, 400, ["mcp"], "ch"⟩)],
           [("auth_ATOK", ⟨"ATOK", "cid", ["prov"], none⟩)], [],
           [("mcp_abcd", "ATOK")], [("mcp_abcd", "ATOK")]⟩
          "cid" ⟨"mcp_abcd", "cid", "http://cb", true, 400, ["mcp"], "ch"⟩ "ff" 500
          = (.ok tok, s₂)
        ∧ dget s₂.auth_codes ("mcp_" ++ "abcd") = none
        ∧ ∀ (cid2 tok_hex2 : String) (ac2 : OAuthP.AuthorizationCode)
            (tnow2 : Int), ac2.code = "mcp_" ++ "abcd" →
            OAuthP.exchange_authorization_code s₂ cid2 ac2 tok_hex2 tnow2
              = (.error "Invalid authorization code", s₂) :=
  C1_minted_auth_code_single_use
    ⟨[], [], [("st1", ⟨"http://cb", "ch", "True", "cid"⟩)], [], []⟩
    ⟨"mcp", "prov"⟩ "c" "st1" "http://cb?code=mcp_abcd&state=st1"
    ⟨200, none, none, some "ATOK", none⟩ "abcd" 100
    ⟨[("mcp_abcd", ⟨"mcp_abcd", "cid", "http://cb", true, 400, ["mcp"], "ch"⟩)],
     [("auth_ATOK", ⟨"ATOK", "cid", ["prov"], none⟩)], [],
     [("mcp_abcd", "ATOK")], [("mcp_abcd", "ATOK")]⟩
    rfl "cid" ⟨"mcp_abcd", "cid", "http://cb", true, 400, ["mcp"], "ch"⟩
    "ff" 500 rfl

/-- C2 (amended): a state entry is single-use in the successful case —
after a `handle_callback(code, s)` that returns a redirect URI, the entry
for `s` is deleted, so a repeated `handle_callback` with the same `s`
fails with the invalid-state error; if the callback terminates with an
error during the token exchange, the entry is NOT deleted. -/
theorem C2_state_entry_deleted_on_success
    (st : OAuthP.ProviderState) (settings : OAuthP.Settings)
    (code state uri : String) (resp : OAuthP.CallbackResponse)
    (hex : String) (now : Int) (s₁ : OAuthP.ProviderState)
    (hcb : OAuthP.handle_callback st settings code state resp hex now
      = (.ok uri, s₁)) :
    dget s₁.state_mapping state = none
    ∧ ∀ (settings2 : OAuthP.Settings) (code2 : String)
        (resp2 : OAuthP.CallbackResponse) (hex2 : String) (now2 : Int),
        OAuthP.handle_callback s₁ settings2 code2 state resp2 hex2 now2
          = (.error .invalidState, s₁) := by
  obtain ⟨-, hsm⟩ :=
    handle_callback_ok_inv st settings code state uri resp hex now s₁ hcb
  have h1 : dget s₁.state_mapping state = none := by
    rw [hsm]
    exact dget_ddel_self _ _
  refine ⟨h1, fun settings2 code2 resp2 hex2 now2 => ?_⟩
  unfold OAuthP.handle_callback
  rw [h1]

/-- Witness for the amended C2 theorem: a concrete successful callback
deletes the state entry and a repeat fails with the invalid-state error. -/
theorem C2_witness :
    dget (⟨[("mcp_abcd", ⟨"mcp_abcd", "cid", "http://cb", true, 400, ["mcp"], "ch"⟩)],
        [("auth_ATOK", ⟨"ATOK", "cid", ["prov"], none⟩)], [],
        [("mcp_abcd", "ATOK")], [("mcp_abcd", "ATOK")]⟩
        : OAuthP.ProviderState).state_mapping "st1" = none
    ∧ ∀ (settings2 : OAuthP.Settings) (code2 : String)
        (resp2 : OAuthP.CallbackResponse) (hex2 : String) (now2 : Int),
        OAuthP.handle_callback
          ⟨[("mcp_abcd", ⟨"mcp_abcd", "cid", "http://cb", true, 400, ["mcp"], "ch"⟩)],
           [("auth_ATOK", ⟨"ATOK", "cid", ["prov"], none⟩)], [],
           [("mcp_abcd", "ATOK")], [("mcp_abcd", "ATOK")]⟩
          settings2 code2 "st1" resp2 hex2 now2
          = (.error .invalidState,
             ⟨[("mcp_abcd", ⟨"mcp_abcd", "cid", "http://cb", true, 400, ["mcp"], "ch"⟩)],
              [("auth_ATOK", ⟨"ATOK", "cid", ["prov"], none⟩)], [],
              [("mcp_abcd", "ATOK")], [("mcp_abcd", "ATOK")]⟩) :=
  C2_state_entry_deleted_on_success
    ⟨[], [], [("st1", ⟨"http://cb", "ch", "True", "cid"⟩)], [], []⟩
    ⟨"mcp", "prov"⟩ "c" "st1" "http://cb?code=mcp_abcd&state=st1"
    ⟨200, none, none, some "ATOK", none⟩ "abcd" 100
    ⟨[("mcp_abcd", ⟨"mcp_abcd", "cid", "http://cb", true, 400, ["mcp"], "ch"⟩)],
     [("auth_ATOK", ⟨"ATOK", "cid", ["prov"], none⟩)], [],
     [("mcp_abcd", "ATOK")], [("mcp_abcd", "ATOK")]⟩
    rfl

/-- Counterexample for C2 as stated: a `handle_callback` terminating with
an error (here a failed token exchange, HTTP 400) leaves the consumed
state entry in the mapping, so the entry is NOT absent after every
completed invocation. -/
theorem C2_counterexample :
    OAuthP.handle_callback
        ⟨[], [], [("st1", ⟨"http://cb", "ch", "True", "cid"⟩)], [], []⟩
        ⟨"mcp", "prov"⟩ "c" "st1" ⟨400, none, none, none, none⟩ "abcd" 100
      = (.error .exchangeFailed,
         ⟨[], [], [("st1", ⟨"http://cb", "ch", "True", "cid"⟩)], [], []⟩)
    ∧ dget [("st1", (⟨"http://cb", "ch", "True", "cid"⟩ : OAuthP.StateData))] "st1"
      = some ⟨"http://cb", "ch", "True", "cid"⟩ :=
  ⟨rfl, rfl⟩

/-- Unfolding: `_refresh_token` on a received response. -/
theorem refresh_response_eq (st : DynTok.ClientState) (now : Int)
    (r : DynTok.TokenResponse) :
    DynTok.refresh_token st now (.response r) =
      (if ¬ r.json_ok then .error .jsonError
       else if pyTruthyStr (pyOrStr r.access_token r.token) then
         .ok ⟨pyOrStr r.access_token r.token,
              now + (r.expires_in.getD DynTok.DEFAULT_TOKEN_EXPIRY)
                - DynTok.TOKEN_REFRESH_BUFFER⟩
       else if r.status ≥ 400 then .error (.httpStatusError r.status)
       else .ok { st with access_token := pyOrStr r.access_token r.token }) :=
  rfl

/-- C4: `_refresh_token` extracts the token from the `access_token` or
`token` field regardless of HTTP status (a 401 carrying a token succeeds)
and sets `expires_at = now + expires_in - 60` with `expires_in`
defaulting to 3600; when no token is present and the status is an error
status, it raises the underlying HTTP error. -/
theorem C4_refresh_token_despite_error_status (st : DynTok.ClientState)
    (now : Int) (r : DynTok.TokenResponse) (hjson : r.json_ok = true) :
    (pyTruthyStr (pyOrStr r.access_token r.token) = true →
      DynTok.refresh_token st now (.response r) =
        .ok ⟨pyOrStr r.access_token r.token,
             now + (r.expires_in.getD 3600) - 60⟩)
    ∧ (pyTruthyStr (pyOrStr r.access_token r.token) = false → r.status ≥ 400 →
      DynTok.refresh_token st now (.response r)
        = .error (.httpStatusError r.status)) := by
  rw [refresh_response_eq]
  rw [if_neg (by rw [hjson]; exact fun hc => hc rfl)]
  constructor
  · intro htok
    rw [if_pos htok]
    rfl
  · intro htok hst
    rw [if_neg (by rw [htok]; simp), if_pos hst]

/-- Witness for C4: the spec scenario — HTTP 401 with body
`{"access_token": "t1", "expires_in": 60}` refreshes successfully using
`t1` (expiring at `now + 60 - 60 = now`), and a token-free 500 response
raises the HTTP status error. -/
theorem C4_witness :
    DynTok.refresh_token ⟨none, 0⟩ 1000
        (.response ⟨401, true, some "t1", none, some 60⟩)
      = .ok ⟨some "t1", 1000⟩
    ∧ DynTok.refresh_token ⟨none, 0⟩ 1000
        (.response ⟨500, true, none, none, none⟩)
      = .error (.httpStatusError 500) :=
  ⟨(C4_refresh_token_despite_error_status ⟨none, 0⟩ 1000
      ⟨401, true, some "t1", none, some 60⟩ rfl).1 (by decide),
   (C4_refresh_token_despite_error_status ⟨none, 0⟩ 1000
      ⟨500, true, none, none, none⟩ rfl).2 (by decide) (by decide)⟩

/-- C5: for a non-token-endpoint `request`, a refresh is performed iff the
cached token is falsy or `now` has reached the cached expiry; a refresh
failure clears the cache to `(None, 0)` and propagates the error with no
retry; and a client that has just refreshed (obtaining a token) performs
no second refresh for any request issued before `expires_at`. -/
theorem C5_refresh_iff_absent_or_expired (st : DynTok.ClientState)
    (now : Int) (init caller : List (String × String))
    (call : DynTok.RefreshCall) :
    ((!pyTruthyStr st.access_token || decide (now ≥ st.expires_at)) = false →
      ∃ d, DynTok.request st now init caller call = (.ok d, st)
        ∧ d.refreshed = false)
    ∧ ((!pyTruthyStr st.access_token || decide (now ≥ st.expires_at)) = true →
      ∀ st', DynTok.refresh_token st now call = .ok st' →
        ∃ d, DynTok.request st now init caller call = (.ok d, st')
          ∧ d.refreshed = true)
    ∧ ((!pyTruthyStr st.access_token || decide (now ≥ st.expires_at)) = true →
      ∀ e, DynTok.refresh_token st now call = .error e →
        DynTok.request st now init caller call = (.error e, ⟨none, 0⟩))
    ∧ (∀ (st₀ : DynTok.ClientState) (t₀ : Int) (r₀ : DynTok.TokenResponse),
        DynTok.refresh_token st₀ t₀ (.response r₀) = .ok st →
        pyTruthyStr (pyOrStr r₀.access_token r₀.token) = true →
        now < st.expires_at →
        ∃ d, DynTok.request st now init caller call = (.ok d, st)
          ∧ d.refreshed = false) := by
  refine ⟨fun hneed => ?_, fun hneed st' hr => ?_, fun hneed e hr => ?_,
    fun st₀ t₀ r₀ hr₀ htok hnow => ?_⟩
  · unfold DynTok.request
    rw [hneed]
    exact ⟨_, rfl, rfl⟩
  · unfold DynTok.request
    rw [hneed, hr]
    exact ⟨_, rfl, rfl⟩
  · unfold DynTok.request
    rw [hneed, hr]
    rfl
  · have hat : st.access_token = pyOrStr r₀.access_token r₀.token := by
      rw [refresh_response_eq] at hr₀
      by_cases hjson : r₀.json_ok = true
      · rw [if_neg (by rw [hjson]; exact fun hc => hc rfl), if_pos htok] at hr₀
        rw [← Except.ok.inj hr₀]
      · rw [if_pos (by simpa using hjson)] at hr₀
        exact absurd hr₀ (by simp)
    have hneed : (!pyTruthyStr st.access_token
        || decide (now ≥ st.expires_at)) = false := by
      rw [hat, htok]
      simp [decide_eq_false (not_le.mpr hnow)]
    unfold DynTok.request
    rw [hneed]
    exact ⟨_, rfl, rfl⟩

/-- Witness for C5: a fresh client refreshes once at its first request and
not again before expiry; a failing refresh propagates and clears the
cache. -/
theorem C5_witness :
    (∃ d, DynTok.request ⟨some "t1", 2000⟩ 1500 [] []
        (.response ⟨200, true, some "t2", none, none⟩) = (.ok d, ⟨some "t1", 2000⟩)
      ∧ d.refreshed = false)
    ∧ (∃ d, DynTok.request ⟨none, 0⟩ 1500 [] []
        (.response ⟨200, true, some "t2", none, some 120⟩)
          = (.ok d, ⟨some "t2", 1560⟩)
      ∧ d.refreshed = true)
    ∧ DynTok.request ⟨none, 0⟩ 1500 [] [] (.requestError "boom")
        = (.error (.requestError "boom"), ⟨none, 0⟩)
    ∧ (∃ d, DynTok.request ⟨some "t2", 1560⟩ 1559 [] []
        (.response ⟨500, true, none, none, none⟩) = (.ok d, ⟨some "t2", 1560⟩)
      ∧ d.refreshed = false) :=
  ⟨(C5_refresh_iff_absent_or_expired ⟨some "t1", 2000⟩ 1500 [] []
      (.response ⟨200, true, some "t2", none, none⟩)).1 (by decide),
   (C5_refresh_iff_absent_or_expired ⟨none, 0⟩ 1500 [] []
      (.response ⟨200, true, some "t2", none, some 120⟩)).2.1 (by decide)
      ⟨some "t2", 1560⟩ rfl,
   (C5_refresh_iff_absent_or_expired ⟨none, 0⟩ 1500 [] []
      (.requestError "boom")).2.2.1 (by decide) (.requestError "boom") rfl,
   (C5_refresh_iff_absent_or_expired ⟨some "t2", 1560⟩ 1559 [] []
      (.response ⟨500, true, none, none, none⟩)).2.2.2
      ⟨none, 0⟩ 1500 ⟨200, true, some "t2", none, some 120⟩ rfl (by decide)
      (by decide)⟩

/-- Lookup in merged headers: a binding from the update list wins,
otherwise the base dictionary is consulted. -/
theorem dget_updateAll (upd : List (String × String))
    (base : List (String × String)) (k : String) :
    dget (DynTok.updateAll base upd) k =
      match dget (DynTok.updateAll [] upd) k with
      | some v => some v
      | none => dget base k := by
  induction upd generalizing base with
  | nil => rfl
  | cons a rest ih =>
    show dget (DynTok.updateAll (dinsert base a.1 a.2) rest) k = _
    rw [ih (dinsert base a.1 a.2)]
    have hr : DynTok.updateAll [] (a :: rest)
        = DynTok.updateAll (dinsert [] a.1 a.2) rest := rfl
    rw [hr, ih (dinsert [] a.1 a.2)]
    cases hx : dget (DynTok.updateAll [] rest) k with
    | some v => rfl
    | none =>
      rw [dget_dinsert, dget_dinsert]
      by_cases hk : k = a.1
      · rw [if_pos hk, if_pos hk]
      · rw [if_neg hk, if_neg hk]
        rfl

/-- The header dictionary `request` dispatches: init headers updated by
caller headers, `Authorization` overwritten with the bearer token,
`Content-Type` defaulted. -/
theorem dispatch_headers_spec (init caller : List (String × String))
    (tok : Option String) (h2 h3 : List (String × String))
    (hh2 : h2 = dinsert (DynTok.updateAll init caller) "Authorization"
      ("Bearer " ++ pyStr tok))
    (hh3 : h3 = if (dget h2 "Content-Type").isSome = true then h2
                else dinsert h2 "Content-Type" "application/json") :
    dget h3 "Authorization" = some ("Bearer " ++ pyStr tok)
    ∧ (dget (DynTok.updateAll init caller) "Content-Type" = none →
        dget h3 "Content-Type" = some "application/json")
    ∧ (∀ k v, k ≠ "Authorization" →
        dget (DynTok.updateAll [] caller) k = some v →
        dget h3 k = some v) := by
  have hauth_ct : ("Content-Type" : String) ≠ "Authorization" := by decide
  refine ⟨?_, ?_, ?_⟩
  · by_cases hct : (dget h2 "Content-Type").isSome = true
    · rw [hh3, if_pos hct, hh2, dget_dinsert, if_pos rfl]
    · rw [hh3, if_neg hct, dget_dinsert, if_neg (by decide), hh2,
        dget_dinsert, if_pos rfl]
  · intro hnone
    have h2none : dget h2 "Content-Type" = none := by
      rw [hh2, dget_dinsert, if_neg hauth_ct]
      exact hnone
    rw [hh3, if_neg (by rw [h2none]; simp), dget_dinsert, if_pos rfl]
  · intro k v hk hkv
    have h1 : dget (DynTok.updateAll init caller) k = some v := by
      rw [dget_updateAll caller init k, hkv]
    have h2k : dget h2 k = some v := by
      rw [hh2, dget_dinsert, if_neg hk]
      exact h1
    by_cases hct : (dget h2 "Content-Type").isSome = true
    · rw [hh3, if_pos hct]
      exact h2k
    · have hkc : k ≠ "Content-Type" := by
        intro hc
        rw [hc] at h2k
        rw [h2k] at hct
        simp at hct
      rw [hh3, if_neg hct, dget_dinsert, if_neg hkc]
      exact h2k

/-- C6 (amended): every dispatched non-token-endpoint request carries
`Authorization: Bearer <cached token>` — overwriting even a
caller-supplied `Authorization` header — and `Content-Type` defaults to
`application/json` when neither the caller nor the init headers set it;
every caller-supplied header other than `Authorization` takes precedence
over the init headers and the injected defaults. -/
theorem C6_auth_header_injected_content_type_defaulted
    (st : DynTok.ClientState) (now : Int)
    (init caller : List (String × String)) (call : DynTok.RefreshCall)
    (d : DynTok.Dispatch) (st' : DynTok.ClientState)
    (h : DynTok.request st now init caller call = (.ok d, st')) :
    dget d.headers "Authorization"
      = some ("Bearer " ++ pyStr st'.access_token)
    ∧ (dget (DynTok.updateAll init caller) "Content-Type" = none →
        dget d.headers "Content-Type" = some "application/json")
    ∧ (∀ k v, k ≠ "Authorization" →
        dget (DynTok.updateAll [] caller) k = some v →
        dget d.headers k = some v) := by
  unfold DynTok.request at h
  simp only [] at h
  split at h
  · simp at h
  · simp only [Prod.mk.injEq, Except.ok.injEq] at h
    obtain ⟨hd, hs⟩ := h
    subst hs
    rw [← hd]
    exact dispatch_headers_spec init caller _ _ _ rfl rfl

/-- Witness for the amended C6 theorem: a concrete dispatch with a caller
`Content-Type` kept and a caller `X-Extra` preserved. -/
theorem C6_witness :
    dget ([("Content-Type", "text/plain"), ("X-Extra", "1"),
        ("Authorization", "Bearer t1")] : List (String × String))
      "Authorization" = some ("Bearer " ++ pyStr (some "t1"))
    ∧ (dget (DynTok.updateAll [] [("Content-Type", "text/plain"), ("X-Extra", "1")])
        "Content-Type" = none →
        dget ([("Content-Type", "text/plain"), ("X-Extra", "1"),
          ("Authorization", "Bearer t1")] : List (String × String))
          "Content-Type" = some "application/json")
    ∧ (∀ k v, k ≠ "Authorization" →
        dget (DynTok.updateAll []
          [("Content-Type", "text/plain"), ("X-Extra", "1")]) k = some v →
        dget ([("Content-Type", "text/plain"), ("X-Extra", "1"),
          ("Authorization", "Bearer t1")] : List (String × String)) k = some v) :=
  C6_auth_header_injected_content_type_defaulted
    ⟨some "t1", 2000⟩ 1500 []
    [("Content-Type", "text/plain"), ("X-Extra", "1")] (.requestError "unused")
    ⟨[("Content-Type", "text/plain"), ("X-Extra", "1"),
      ("Authorization", "Bearer t1")], false⟩
    ⟨some "t1", 2000⟩ rfl

/-- Counterexample for C6 as stated: a caller-supplied `Authorization`
header does NOT take precedence — the dispatched request carries the
injected bearer token instead. -/
theorem C6_counterexample :
    DynTok.request ⟨some "t1", 2000⟩ 1500 []
        [("Authorization", "Basic zz")] (.requestError "unused")
      = (.ok ⟨[("Authorization", "Bearer t1"),
               ("Content-Type", "application/json")], false⟩,
         ⟨some "t1", 2000⟩)
    ∧ ("Bearer t1" : String) ≠ "Basic zz" :=
  ⟨rfl, by decide⟩

/-- Unfolding: `resolve_auth` in HTTP mode. -/
theorem resolve_auth_http_eq (headers : List (String × String))
    (oauth_enabled : Bool) (provider : Option (List (String × String)))
    (env_base_url : Option String)
    (hmode : HeaderAuth.http_mode headers = true) :
    HeaderAuth.resolve_auth headers oauth_enabled provider env_base_url =
      (if !pyTruthyStr (HeaderAuth.resolved_jwt headers oauth_enabled provider)
          || !pyTruthyStr (HeaderAuth.resolved_base_url headers env_base_url) then
        .httpError ("HTTP mode detected but missing required configuration: "
          ++ String.intercalate ", "
            ((if !pyTruthyStr (HeaderAuth.resolved_jwt headers oauth_enabled provider) then
                ["instana-jwt-token (or valid OAuth token)"] else []) ++
             (if !pyTruthyStr (HeaderAuth.resolved_base_url headers env_base_url) then
                ["instana-base-url (header or INSTANA_BASE_URL env var)"] else [])))
      else if !pyStartsWith
            (pyStr (HeaderAuth.resolved_base_url headers env_base_url)) "http://"
          && !pyStartsWith
            (pyStr (HeaderAuth.resolved_base_url headers env_base_url)) "https://" then
        .httpError "Instana base URL must start with http:// or https://"
      else
        .httpCreds
          (pyStr (HeaderAuth.resolved_jwt headers oauth_enabled provider))
          (pyStr (HeaderAuth.resolved_base_url headers env_base_url))) := by
  unfold HeaderAuth.resolve_auth
  rw [hmode]
  rfl

/-- C9: in HTTP mode, after credential resolution (header lookup, OAuth
token-mapping lookup, default-base-URL fallback), a missing downstream
token or base URL, or a base URL without an `http://`/`https://` scheme,
yields a configuration-error payload; the wrapper never falls back to the
constructor-supplied stdio credentials. -/
theorem C9_http_mode_never_falls_back_to_stdio
    (headers : List (String × String)) (oauth_enabled : Bool)
    (provider : Option (List (String × String))) (env_base_url : Option String)
    (hmode : HeaderAuth.http_mode headers = true) :
    HeaderAuth.resolve_auth headers oauth_enabled provider env_base_url ≠ .stdio
    ∧ ((pyTruthyStr (HeaderAuth.resolved_jwt headers oauth_enabled provider) = false
        ∨ pyTruthyStr (HeaderAuth.resolved_base_url headers env_base_url) = false) →
        ∃ msg, HeaderAuth.resolve_auth headers oauth_enabled provider env_base_url
          = .httpError msg)
    ∧ (pyTruthyStr (HeaderAuth.resolved_jwt headers oauth_enabled provider) = true →
        pyTruthyStr (HeaderAuth.resolved_base_url headers env_base_url) = true →
        pyStartsWith (pyStr (HeaderAuth.resolved_base_url headers env_base_url))
          "http://" = false →
        pyStartsWith (pyStr (HeaderAuth.resolved_base_url headers env_base_url))
          "https://" = false →
        HeaderAuth.resolve_auth headers oauth_enabled provider env_base_url
          = .httpError "Instana base URL must start with http:// or https://")
    ∧ (pyTruthyStr (HeaderAuth.resolved_jwt headers oauth_enabled provider) = true →
        pyTruthyStr (HeaderAuth.resolved_base_url headers env_base_url) = true →
        (pyStartsWith (pyStr (HeaderAuth.resolved_base_url headers env_base_url))
            "http://" = true
          ∨ pyStartsWith (pyStr (HeaderAuth.resolved_base_url headers env_base_url))
            "https://" = true) →
        HeaderAuth.resolve_auth headers oauth_enabled provider env_base_url
          = .httpCreds
              (pyStr (HeaderAuth.resolved_jwt headers oauth_enabled provider))
              (pyStr (HeaderAuth.resolved_base_url headers env_base_url))) := by
  rw [resolve_auth_http_eq headers oauth_enabled provider env_base_url hmode]
  refine ⟨?_, ?_, ?_, ?_⟩
  · split
    · simp
    · split
      · simp
      · simp
  · intro hor
    rcases hor with hjwt | hurl
    · rw [if_pos (by rw [hjwt]; rfl)]
      exact ⟨_, rfl⟩
    · rw [if_pos (by rw [hurl]; simp)]
      exact ⟨_, rfl⟩
  · intro hjwt hurl hs1 hs2
    rw [if_neg (by rw [hjwt, hurl]; simp), if_pos (by rw [hs1, hs2]; rfl)]
  · intro hjwt hurl hs
    rw [if_neg (by rw [hjwt, hurl]; simp)]
    rcases hs with hs1 | hs2
    · rw [if_neg (by rw [hs1]; simp)]
    · rw [if_neg (by rw [hs2]; simp)]

/-- Witness for C9: a lone bearer token with no registered provider and
no environment base URL produces the missing-configuration error; a
non-HTTP(S) base URL produces the scheme error; full headers succeed. -/
theorem C9_witness :
    (HeaderAuth.resolve_auth [("authorization", "Bearer m1")] false none none
      ≠ .stdio)
    ∧ (∃ msg, HeaderAuth.resolve_auth [("authorization", "Bearer m1")] false none none
        = .httpError msg)
    ∧ HeaderAuth.resolve_auth
        [("instana-jwt-token", "j"), ("instana-base-url", "ftp://x")] false none none
        = .httpError "Instana base URL must start with http:// or https://"
    ∧ HeaderAuth.resolve_auth
        [("instana-jwt-token", "j"), ("instana-base-url", "https://x")] false none none
        = .httpCreds "j" "https://x" :=
  ⟨(C9_http_mode_never_falls_back_to_stdio
      [("authorization", "Bearer m1")] false none none (by decide)).1,
   (C9_http_mode_never_falls_back_to_stdio
      [("authorization", "Bearer m1")] false none none (by decide)).2.1
      (.inl (by decide)),
   (C9_http_mode_never_falls_back_to_stdio
      [("instana-jwt-token", "j"), ("instana-base-url", "ftp://x")] false none none
      (by decide)).2.2.1 (by decide) (by decide) (by decide) (by decide),
   (C9_http_mode_never_falls_back_to_stdio
      [("instana-jwt-token", "j"), ("instana-base-url", "https://x")] false none none
      (by decide)).2.2.2 (by decide) (by decide) (.inr (by decide))⟩

end McpInstana
